import Mathlib

/-!
A shallow embedding of the SIYI SDK Python client (siyi_sdk.py, class SIYISDK):
the receive-buffer frame scan of bufferCallback, the per-command payload
parsing functions and the dispatch chain, the connection liveness probe
(checkConnection), the connect retry loop, the rotation-controller loop body
(setGimbalRotation), and the session socket lifecycle (disconnect / sendMsg),
together with theorems settling the specification claims about them.

The incoming byte buffer is handled by the source as a hex string
(buff.hex()), so buffers are modelled as lists of hex nibbles (numbers
0..15), two nibbles per byte, high nibble first.

The repository modules siyi_message, utils and cameras are imported by
siyi_sdk.py but are not part of the given sources; the few facts needed
from them (the toInt helper, the command-id enumeration, the camera
capability limits, the message record classes and their initial values) are
modelled from the specification and marked as such in their doc comments.
-/

/-- Hex nibbles of one byte, high nibble first, as produced by the hex
method on Python bytes. -/
def byteNibbles (b : Nat) : List Nat := [b / 16 % 16, b % 16]

/-- Hex nibbles of a byte list, in order. -/
def bytesToNibbles : List Nat → List Nat
  | [] => []
  | b :: rest => byteNibbles b ++ bytesToNibbles rest

/-- Python slice s[a:b] on a nibble list. -/
def pySlice (s : List Nat) (a b : Nat) : List Nat := (s.drop a).take (b - a)

/-- Value of a nibble string read as a base-16 integer, most significant
nibble first; the value Python int(s, 16) returns on a nonempty hex
string. -/
def hexNat (s : List Nat) : Nat := s.foldl (fun acc d => 16 * acc + d) 0

/-- Python int(prefix + s, base=16) on a hex-digit string s: it raises
ValueError exactly when s is empty, otherwise returns the base-16 value;
the failure case is modelled as none. -/
def hexNatOpt (s : List Nat) : Option Nat :=
  if s.isEmpty then none else some (hexNat s)

/-- Modelled from the spec: utils.toInt (the utils module is not among the
given sources). Telemetry fields are signed fixed-point values carried as
hex integers in sixteen bits; a nonempty hex string is read base 16 and
interpreted as a 16-bit two's-complement integer, and an empty string is a
decode error (Python int of an empty string raises). -/
def toInt (s : List Nat) : Option Int :=
  if s.isEmpty then none
  else
    let v := hexNat s % 65536
    some (if 32768 ≤ v then (v : Int) - 65536 else (v : Int))

/-- Python int() applied to a rational: truncation toward zero. -/
def truncQ (q : ℚ) : Int := if 0 ≤ q then q.floor else -((-q).floor)

/-- The fixed sync marker 5566, as nibbles (HEADER in bufferCallback). -/
def HEADER : List Nat := [5, 5, 6, 6]

/-- MINIMUM_DATA_LENGTH in bufferCallback: ten wire bytes, i.e. twenty hex
nibbles. -/
def MINIMUM_DATA_LENGTH : Nat := 20

/-- The payload length read by bufferCallback from a buffer that starts
with a sync marker: low byte at nibbles 6..7, high byte at nibbles 8..9,
reassembled high-then-low and read base 16. -/
def dataLen (s : List Nat) : Nat := hexNat (pySlice s 8 10 ++ pySlice s 6 8)

/-- One complete encoded frame as hex nibbles, following the wire layout
the scan loop and the spec describe: sync marker, control byte, payload
length (low byte first), sequence (low byte first), command id, payload
bytes, checksum (two bytes, an opaque value here: the checksum algorithm
lives in the siyi_message module, which is not among the given sources). -/
def frameNibbles (ctrl sq cmd crc : Nat) (payload : List Nat) : List Nat :=
  HEADER ++ byteNibbles ctrl
    ++ byteNibbles (payload.length % 256) ++ byteNibbles (payload.length / 256 % 256)
    ++ byteNibbles (sq % 256) ++ byteNibbles (sq / 256 % 256)
    ++ byteNibbles cmd ++ bytesToNibbles payload
    ++ byteNibbles (crc % 256) ++ byteNibbles (crc / 256 % 256)

/-- The while loop of SIYISDK.bufferCallback, returning the list of packet
slices it hands to the decoder, in order. Each iteration either drops one
leading nibble (sync mismatch), discards the whole remainder (not enough
data for the announced payload), or slices out one complete packet and
continues after it. The fuel argument only bounds the number of
iterations; every iteration strictly shortens the buffer, so a fuel of the
buffer length is always enough (bufferLoop_fuel below). -/
def bufferLoop : Nat → List Nat → List (List Nat)
  | 0, _ => []
  | fuel + 1, s =>
    if MINIMUM_DATA_LENGTH ≤ s.length then
      if s.take 4 = HEADER then
        if s.length < MINIMUM_DATA_LENGTH + 2 * dataLen s then []
        else
          s.take (MINIMUM_DATA_LENGTH + 2 * dataLen s)
            :: bufferLoop fuel (s.drop (MINIMUM_DATA_LENGTH + 2 * dataLen s))
      else bufferLoop fuel (s.drop 1)
    else []

/-- The packet slices bufferCallback extracts from one received datagram.
The buffer is a local variable of bufferCallback in the source: nothing is
carried over to the next receive call. -/
def bufferCallbackPackets (s : List Nat) : List (List Nat) :=
  bufferLoop s.length s

theorem bufferLoop_nil (f : Nat) (s : List Nat) (h : s.length < MINIMUM_DATA_LENGTH) :
    bufferLoop f s = [] := by
  cases f with
  | zero => rfl
  | succ f => simp [bufferLoop, Nat.not_le.mpr h]

theorem bufferLoop_drop1 (f : Nat) (s : List Nat)
    (h : MINIMUM_DATA_LENGTH ≤ s.length) (hh : s.take 4 ≠ HEADER) :
    bufferLoop (f + 1) s = bufferLoop f (s.drop 1) := by
  simp [bufferLoop, h, hh]

theorem bufferLoop_incomplete (f : Nat) (s : List Nat)
    (h : MINIMUM_DATA_LENGTH ≤ s.length) (hh : s.take 4 = HEADER)
    (hl : s.length < MINIMUM_DATA_LENGTH + 2 * dataLen s) :
    bufferLoop (f + 1) s = [] := by
  simp [bufferLoop, h, hh, hl]

theorem bufferLoop_extract (f : Nat) (s : List Nat)
    (h : MINIMUM_DATA_LENGTH ≤ s.length) (hh : s.take 4 = HEADER)
    (hl : MINIMUM_DATA_LENGTH + 2 * dataLen s ≤ s.length) :
    bufferLoop (f + 1) s =
      s.take (MINIMUM_DATA_LENGTH + 2 * dataLen s)
        :: bufferLoop f (s.drop (MINIMUM_DATA_LENGTH + 2 * dataLen s)) := by
  simp [bufferLoop, h, hh, Nat.not_lt.mpr hl]

/-- Fuel irrelevance: any fuel at least the buffer length gives the same
scan result, so bufferCallbackPackets computes the source loop exactly. -/
theorem bufferLoop_fuel (f g : Nat) (s : List Nat)
    (hf : s.length ≤ f) (hg : s.length ≤ g) :
    bufferLoop f s = bufferLoop g s := by
  induction f using Nat.strong_induction_on generalizing g s with
  | _ f ih =>
    match f, g with
    | 0, 0 => rfl
    | 0, g + 1 =>
      have : s.length = 0 := Nat.le_zero.mp hf
      rw [bufferLoop_nil 0 s (by simp [this, MINIMUM_DATA_LENGTH]),
        bufferLoop_nil (g + 1) s (by simp [this, MINIMUM_DATA_LENGTH])]
    | f + 1, 0 =>
      have : s.length = 0 := Nat.le_zero.mp hg
      rw [bufferLoop_nil (f + 1) s (by simp [this, MINIMUM_DATA_LENGTH]),
        bufferLoop_nil 0 s (by simp [this, MINIMUM_DATA_LENGTH])]
    | f + 1, g + 1 =>
      by_cases h20 : MINIMUM_DATA_LENGTH ≤ s.length
      · by_cases hh : s.take 4 = HEADER
        · by_cases hl : s.length < MINIMUM_DATA_LENGTH + 2 * dataLen s
          · rw [bufferLoop_incomplete f s h20 hh hl, bufferLoop_incomplete g s h20 hh hl]
          · have hl2 : MINIMUM_DATA_LENGTH + 2 * dataLen s ≤ s.length := Nat.not_lt.mp hl
            rw [bufferLoop_extract f s h20 hh hl2, bufferLoop_extract g s h20 hh hl2]
            have hlen : (s.drop (MINIMUM_DATA_LENGTH + 2 * dataLen s)).length ≤ f := by
              simp only [List.length_drop]
              have : MINIMUM_DATA_LENGTH = 20 := rfl
              omega
            have hleng : (s.drop (MINIMUM_DATA_LENGTH + 2 * dataLen s)).length ≤ g := by
              simp only [List.length_drop]
              have : MINIMUM_DATA_LENGTH = 20 := rfl
              omega
            rw [ih f (Nat.lt_succ_self f) g _ hlen hleng]
        · rw [bufferLoop_drop1 f s h20 hh, bufferLoop_drop1 g s h20 hh]
          have hlen : (s.drop 1).length ≤ f := by
            simp only [List.length_drop]
            have : MINIMUM_DATA_LENGTH = 20 := rfl
            omega
          have hleng : (s.drop 1).length ≤ g := by
            simp only [List.length_drop]
            have : MINIMUM_DATA_LENGTH = 20 := rfl
            omega
          rw [ih f (Nat.lt_succ_self f) g _ hlen hleng]
      · rw [bufferLoop_nil (f + 1) s (Nat.not_le.mp h20), bufferLoop_nil (g + 1) s (Nat.not_le.mp h20)]

theorem bytesToNibbles_length (bs : List Nat) : (bytesToNibbles bs).length = 2 * bs.length := by
  induction bs with
  | nil => rfl
  | cons b rest ih =>
    simp [bytesToNibbles, byteNibbles, ih]
    omega

theorem frameNibbles_length (ctrl sq cmd crc : Nat) (payload : List Nat) :
    (frameNibbles ctrl sq cmd crc payload).length = MINIMUM_DATA_LENGTH + 2 * payload.length := by
  simp only [frameNibbles, HEADER, byteNibbles, MINIMUM_DATA_LENGTH, List.length_append,
    bytesToNibbles_length, List.length_cons, List.length_nil]
  omega

theorem frameNibbles_take4 (ctrl sq cmd crc : Nat) (payload : List Nat) :
    (frameNibbles ctrl sq cmd crc payload).take 4 = HEADER := rfl

theorem frameNibbles_dataLen (ctrl sq cmd crc : Nat) (payload : List Nat)
    (hn : payload.length < 65536) :
    dataLen (frameNibbles ctrl sq cmd crc payload) = payload.length := by
  have h : dataLen (frameNibbles ctrl sq cmd crc payload) =
      hexNat [payload.length / 256 % 256 / 16 % 16, payload.length / 256 % 256 % 16,
        payload.length % 256 / 16 % 16, payload.length % 256 % 16] := rfl
  rw [h]
  simp only [hexNat, List.foldl]
  omega

/-- A buffer that is exactly one complete frame is sliced out whole. -/
theorem packets_of_frame (ctrl sq cmd crc : Nat) (payload : List Nat)
    (hn : payload.length < 65536) :
    bufferCallbackPackets (frameNibbles ctrl sq cmd crc payload) =
      [frameNibbles ctrl sq cmd crc payload] := by
  have hM : MINIMUM_DATA_LENGTH = 20 := rfl
  set F := frameNibbles ctrl sq cmd crc payload with hF
  have hlen : F.length = MINIMUM_DATA_LENGTH + 2 * payload.length :=
    frameNibbles_length ctrl sq cmd crc payload
  have hdl : dataLen F = payload.length := frameNibbles_dataLen ctrl sq cmd crc payload hn
  have h20 : MINIMUM_DATA_LENGTH ≤ F.length := by omega
  have htot : MINIMUM_DATA_LENGTH + 2 * dataLen F = F.length := by omega
  obtain ⟨f, hf⟩ : ∃ f, F.length = f + 1 := ⟨F.length - 1, by omega⟩
  rw [bufferCallbackPackets, hf,
    bufferLoop_extract f F h20 (frameNibbles_take4 ctrl sq cmd crc payload)
      (le_of_eq htot)]
  rw [htot, List.take_length, List.drop_length,
    bufferLoop_nil f [] (by simp [MINIMUM_DATA_LENGTH])]

/-- A leading nibble that does not begin a sync marker is dropped and the
scan result is unchanged: the byte-at-a-time resynchronization of the
source is in fact nibble-at-a-time. -/
theorem bufferCallbackPackets_cons (a : Nat) (s : List Nat)
    (h20 : MINIMUM_DATA_LENGTH ≤ (a :: s).length) (hh : (a :: s).take 4 ≠ HEADER) :
    bufferCallbackPackets (a :: s) = bufferCallbackPackets s := by
  rw [bufferCallbackPackets, bufferCallbackPackets]
  have h1 : (a :: s).length = s.length + 1 := rfl
  rw [h1, bufferLoop_drop1 _ _ (h1 ▸ h20) hh]
  rfl

/-- Every packet the scan emits is a slice of the buffer it was fed. -/
theorem bufferLoop_packet_length (f : Nat) (s p : List Nat) (hp : p ∈ bufferLoop f s) :
    p.length ≤ s.length := by
  induction f generalizing s with
  | zero => simp [bufferLoop] at hp
  | succ f ih =>
    by_cases h20 : MINIMUM_DATA_LENGTH ≤ s.length
    · by_cases hh : s.take 4 = HEADER
      · by_cases hl : s.length < MINIMUM_DATA_LENGTH + 2 * dataLen s
        · rw [bufferLoop_incomplete f s h20 hh hl] at hp
          simp at hp
        · rw [bufferLoop_extract f s h20 hh (Nat.not_lt.mp hl)] at hp
          rcases List.mem_cons.mp hp with h | h
          · exact h ▸ List.length_take_le' _ s
          · have h1 := ih _ h
            have h2 : (s.drop (MINIMUM_DATA_LENGTH + 2 * dataLen s)).length ≤ s.length := by
              simp
            omega
      · have h1 := ih _ (by rwa [bufferLoop_drop1 f s h20 hh] at hp)
        have h2 : (s.drop 1).length ≤ s.length := by simp
        omega
    · rw [bufferLoop_nil (f + 1) s (Nat.not_le.mp h20)] at hp
      simp at hp

/-- A strict prefix of one frame is discarded by the scan without emitting
anything: shorter than the header it never enters the loop, otherwise the
announced total size exceeds what is buffered and the remainder is cleared. -/
theorem packets_take_frame (ctrl sq cmd crc : Nat) (payload : List Nat) (k : Nat)
    (hn : payload.length < 65536)
    (hk : k < (frameNibbles ctrl sq cmd crc payload).length) :
    bufferCallbackPackets ((frameNibbles ctrl sq cmd crc payload).take k) = [] := by
  have hM : MINIMUM_DATA_LENGTH = 20 := rfl
  set F := frameNibbles ctrl sq cmd crc payload with hF
  have hlen : F.length = MINIMUM_DATA_LENGTH + 2 * payload.length :=
    frameNibbles_length ctrl sq cmd crc payload
  have hdl : dataLen F = payload.length := frameNibbles_dataLen ctrl sq cmd crc payload hn
  by_cases hk20 : k < 20
  · exact bufferLoop_nil _ _ (by simp [List.length_take]; omega)
  · have hklen : (F.take k).length = k := by simp [List.length_take]; omega
    have h20 : MINIMUM_DATA_LENGTH ≤ (F.take k).length := by omega
    have ht4 : (F.take k).take 4 = HEADER := by
      rw [List.take_take]
      have h4 : min 4 k = 4 := by omega
      rw [h4]
      exact frameNibbles_take4 ctrl sq cmd crc payload
    have hdk : dataLen (F.take k) = dataLen F := by
      unfold dataLen pySlice
      rw [List.drop_take, List.drop_take, List.take_take, List.take_take]
      have h1 : min (10 - 8) (k - 8) = 10 - 8 := by omega
      have h2 : min (8 - 6) (k - 6) = 8 - 6 := by omega
      rw [h1, h2]
    have hlt : (F.take k).length < MINIMUM_DATA_LENGTH + 2 * dataLen (F.take k) := by
      rw [hklen, hdk]
      omega
    obtain ⟨f, hf⟩ : ∃ f, (F.take k).length = f + 1 := ⟨(F.take k).length - 1, by omega⟩
    rw [bufferCallbackPackets, hf]
    exact bufferLoop_incomplete f _ h20 ht4 hlt

/-- C1 (amended). Resynchronization on garbage: the scan of bufferCallback
drops exactly one leading hex nibble (half a byte, not a whole byte) per
sync-marker mismatch, and the loop always terminates (bufferLoop runs on
fuel that the buffer length bounds, see bufferLoop_fuel). Provided the
sync nibble string 5566 does not occur in the garbage-prefixed hex string
before the true frame start, feeding garbage bytes followed by one valid
encoded frame yields exactly that one frame slice. Without that proviso
the claim is false (see the counterexample): a spurious sync match makes
the scan read a length field across the garbage boundary and discard the
whole buffer. -/
theorem c1_nibble_resync (g : List Nat) (ctrl sq cmd crc : Nat) (payload : List Nat)
    (hn : payload.length < 65536)
    (hg : ∀ k, k < g.length →
      ((g ++ frameNibbles ctrl sq cmd crc payload).drop k).take 4 ≠ HEADER) :
    bufferCallbackPackets (g ++ frameNibbles ctrl sq cmd crc payload) =
      [frameNibbles ctrl sq cmd crc payload] := by
  induction g with
  | nil => simpa using packets_of_frame ctrl sq cmd crc payload hn
  | cons a g ih =>
    have hM : MINIMUM_DATA_LENGTH = 20 := rfl
    have hFlen := frameNibbles_length ctrl sq cmd crc payload
    have hcons : (a :: g) ++ frameNibbles ctrl sq cmd crc payload =
        a :: (g ++ frameNibbles ctrl sq cmd crc payload) := rfl
    have h20 : MINIMUM_DATA_LENGTH ≤
        (a :: (g ++ frameNibbles ctrl sq cmd crc payload)).length := by
      simp only [List.length_cons, List.length_append]
      omega
    have hh : (a :: (g ++ frameNibbles ctrl sq cmd crc payload)).take 4 ≠ HEADER := by
      have h0 := hg 0 (by simp)
      simpa [hcons] using h0
    rw [hcons, bufferCallbackPackets_cons a _ h20 hh]
    refine ih ?_
    intro k hk
    have h1 := hg (k + 1) (by simp only [List.length_cons]; omega)
    simpa [hcons] using h1

/-- C1 counterexample. Two garbage bytes 0x55 0x66 (decimal 85, 102)
followed by one minimal valid frame: the garbage itself is a sync marker,
the scan reads the length field from frame-header bytes, concludes the
buffer is too short, and discards everything, yielding zero frames where
the claim demands exactly one. The second conjunct shows the very same
frame is decoded when fed alone. -/
theorem c1_counterexample :
    bufferCallbackPackets (bytesToNibbles [85, 102] ++ frameNibbles 1 0 1 0 []) = [] ∧
    bufferCallbackPackets (frameNibbles 1 0 1 0 []) = [frameNibbles 1 0 1 0 []] := by
  decide

theorem c1_witness :
    (([] : List Nat).length < 65536 ∧
      ∀ k, k < ([0, 1, 0, 2] : List Nat).length →
        ((([0, 1, 0, 2] : List Nat) ++ frameNibbles 1 7 1 0 []).drop k).take 4 ≠ HEADER) ∧
    bufferCallbackPackets (([0, 1, 0, 2] : List Nat) ++ frameNibbles 1 7 1 0 []) =
      [frameNibbles 1 7 1 0 []] :=
  ⟨⟨by decide, by decide⟩, c1_nibble_resync [0, 1, 0, 2] 1 7 1 0 [] (by decide) (by decide)⟩

/-- C2 (amended). The decoder keeps no residual buffer across receive
calls: the hex buffer is a local variable of bufferCallback, so each
datagram is processed alone and incomplete data is discarded rather than
kept for the next call. Hence a valid frame split across two receive calls
is never decoded: the first part is discarded without emitting anything,
and no packet of the second part can be the frame (every emitted packet is
a slice of the shorter second part); feeding the frame whole yields it.
No partial frame is ever emitted. -/
theorem c2_no_residual (ctrl sq cmd crc : Nat) (payload : List Nat) (k : Nat)
    (hn : payload.length < 65536) (hk0 : 0 < k)
    (hk : k < (frameNibbles ctrl sq cmd crc payload).length) :
    bufferCallbackPackets ((frameNibbles ctrl sq cmd crc payload).take k) = [] ∧
    frameNibbles ctrl sq cmd crc payload ∉
      bufferCallbackPackets ((frameNibbles ctrl sq cmd crc payload).drop k) ∧
    bufferCallbackPackets (frameNibbles ctrl sq cmd crc payload) =
      [frameNibbles ctrl sq cmd crc payload] := by
  refine ⟨packets_take_frame ctrl sq cmd crc payload k hn hk, ?_,
    packets_of_frame ctrl sq cmd crc payload hn⟩
  intro hmem
  have h1 := bufferLoop_packet_length _ _ _ hmem
  simp only [List.length_drop] at h1
  omega

/-- C2 counterexample. A minimal valid frame split after its fifth byte:
feeding the two halves to two bufferCallback runs yields no frame at all,
while feeding it whole yields the frame, so the split decode differs from
the whole decode. -/
theorem c2_counterexample :
    bufferCallbackPackets ((frameNibbles 1 0 1 0 []).take 10) ++
        bufferCallbackPackets ((frameNibbles 1 0 1 0 []).drop 10) ≠
      bufferCallbackPackets (frameNibbles 1 0 1 0 []) := by
  decide

theorem c2_witness :
    (([] : List Nat).length < 65536 ∧ 0 < 10 ∧
        10 < (frameNibbles 1 0 1 0 []).length) ∧
      bufferCallbackPackets ((frameNibbles 1 0 1 0 []).take 10) = [] ∧
      frameNibbles 1 0 1 0 [] ∉
        bufferCallbackPackets ((frameNibbles 1 0 1 0 []).drop 10) ∧
      bufferCallbackPackets (frameNibbles 1 0 1 0 []) = [frameNibbles 1 0 1 0 []] :=
  ⟨⟨by decide, by decide, by decide⟩,
    c2_no_residual 1 0 1 0 [] 10 (by decide) (by decide) (by decide)⟩

/-!
Message records of the state store. Modelled from the spec: the record
classes live in the siyi_message module, which is not among the given
sources; their fields are those the parsing functions of siyi_sdk.py
assign, and their default values stand for the initial values resetVars
restores. Floats are modelled as rationals. A parsing function returns
the updated record paired with the boolean the source returns; a failing
field read (a raised exception in the source) keeps every assignment made
before it, which is why the records are threaded through sequentially.
-/

structure FirmwareMsg where
  seq : Int := 0
  gimbal_firmware_ver : List Nat := []
deriving DecidableEq, Repr

structure HardwareIDMsg where
  seq : Int := 0
  id : List Nat := []
  cam_type_str : String := ""
deriving DecidableEq, Repr

structure AutoFocusMsg where
  seq : Int := 0
  success : Bool := false
deriving DecidableEq, Repr

structure ManualZoomMsg where
  seq : Int := 0
  level : ℚ := -1
deriving DecidableEq, Repr

structure ManualFocusMsg where
  seq : Int := 0
  success : Bool := false
deriving DecidableEq, Repr

structure GimbalSpeedMsg where
  seq : Int := 0
  success : Bool := false
deriving DecidableEq, Repr

structure CenterMsg where
  seq : Int := 0
  success : Bool := false
deriving DecidableEq, Repr

structure RecordingMsg where
  seq : Int := 0
  state : Nat := 0
deriving DecidableEq, Repr

structure MountDirMsg where
  seq : Int := 0
  dir : Nat := 0
deriving DecidableEq, Repr

structure MotionModeMsg where
  seq : Int := 0
  mode : Nat := 0
deriving DecidableEq, Repr

structure FuncFeedbackInfoMsg where
  seq : Int := 0
  info_type : Nat := 0
deriving DecidableEq, Repr

structure AttitdueMsg where
  seq : Int := 0
  yaw : ℚ := 0
  pitch : ℚ := 0
  roll : ℚ := 0
  yaw_speed : ℚ := 0
  pitch_speed : ℚ := 0
  roll_speed : ℚ := 0
deriving DecidableEq, Repr

structure SetGimbalAnglesMsg where
  seq : Int := 0
deriving DecidableEq, Repr

structure RequestDataStreamMsg where
  seq : Int := 0
  data_type : Nat := 0
deriving DecidableEq, Repr

structure RequestAbsoluteZoomMsg where
  seq : Int := 0
  success : Bool := false
deriving DecidableEq, Repr

structure CurrentZoomValueMsg where
  seq : Int := 0
  level : ℚ := 0
deriving DecidableEq, Repr

structure TemperatureAtPointMsg where
  seq : Int := 0
  temp : ℚ := 0
  x : Nat := 0
  y : Nat := 0
deriving DecidableEq, Repr

structure GimbalCameraSoftRestartMsg where
  seq : Int := 0
  camera_reboot_status : Nat := 0
  gimbal_reboot_status : Nat := 0
deriving DecidableEq, Repr

structure RequestGimbalCameraCodecSpecsMsg where
  seq : Int := 0
  stream_type : Nat := 0
  video_enc_type : Nat := 0
  resolution_l : Nat := 0
  resolution_h : Nat := 0
  video_bitrate : Nat := 0
  video_framerate : Nat := 0
  sta : Nat := 0
deriving DecidableEq, Repr

structure SendGimbalCameraCodecSpecsMsg where
  seq : Int := 0
  stream_type : Nat := 0
  sta : Nat := 0
deriving DecidableEq, Repr

structure RequestGimbalCameraImageModeMsg where
  seq : Int := 0
  vdisp_mode : Nat := 0
  description : String := ""
deriving DecidableEq, Repr

/-- An uncaught Python exception escaping bufferCallback. -/
inductive PyError where
  | typeError
  | valueError
deriving DecidableEq, Repr

/-- Python bytes.fromhex on a nibble string: fails on an odd nibble
count, otherwise pairs nibbles into byte values. -/
def nibblesToBytes : List Nat → Option (List Nat)
  | [] => some []
  | [_] => none
  | a :: b :: rest => (nibblesToBytes rest).map (fun r => (16 * a + b) :: r)

/-- Python bytes.fromhex(msg).decode(ascii): fails on an odd nibble count
or on a byte outside the ASCII range. -/
def asciiFromNibbles (s : List Nat) : Option (List Nat) :=
  (nibblesToBytes s).bind (fun bs => if bs.all (· < 128) then some bs else none)

/-- SIYISDK.parseFirmwareMsg: version is the raw hex slice msg[8:16]; the
sequence is stored; Python slicing never raises, so this always succeeds. -/
def parseFirmwareMsg (st : FirmwareMsg) (msg : List Nat) (sq : Int) : FirmwareMsg × Bool :=
  ({ st with gimbal_firmware_ver := pySlice msg 8 16, seq := sq }, true)

/-- SIYISDK.parseHardwareIDMsg: stores the sequence and the raw hex id,
then replaces the id with its ASCII decoding truncated to ten characters;
the camera-type lookup on the first two characters is only logged when it
fails. The lookup table (CAM_DICT of siyi_message) is not among the given
sources, so it is passed in as a function. -/
def parseHardwareIDMsg (camDict : List Nat → Option String) (st : HardwareIDMsg)
    (msg : List Nat) (sq : Int) : HardwareIDMsg × Bool :=
  let st1 := { st with seq := sq, id := msg }
  match asciiFromNibbles msg with
  | none => (st1, false)
  | some chars =>
    let st2 := { st1 with id := chars.take 10 }
    match camDict (chars.take 10 |>.take 2) with
    | none => (st2, true)
    | some t => ({ st2 with cam_type_str := t }, true)

/-- SIYISDK.parseAttitudeMsg: the sequence is assigned first, then the six
fixed-point fields in source order, each from a byte-swapped hex slice
scaled by one tenth; a failing field keeps everything assigned so far. -/
def parseAttitudeMsg (st : AttitdueMsg) (msg : List Nat) (sq : Int) : AttitdueMsg × Bool :=
  let st1 := { st with seq := sq }
  match toInt (pySlice msg 2 4 ++ pySlice msg 0 2) with
  | none => (st1, false)
  | some y =>
    let st2 := { st1 with yaw := (y : ℚ) / 10 }
    match toInt (pySlice msg 6 8 ++ pySlice msg 4 6) with
    | none => (st2, false)
    | some p =>
      let st3 := { st2 with pitch := (p : ℚ) / 10 }
      match toInt (pySlice msg 10 12 ++ pySlice msg 8 10) with
      | none => (st3, false)
      | some r =>
        let st4 := { st3 with roll := (r : ℚ) / 10 }
        match toInt (pySlice msg 14 16 ++ pySlice msg 12 14) with
        | none => (st4, false)
        | some ys =>
          let st5 := { st4 with yaw_speed := (ys : ℚ) / 10 }
          match toInt (pySlice msg 18 20 ++ pySlice msg 16 18) with
          | none => (st5, false)
          | some ps =>
            let st6 := { st5 with pitch_speed := (ps : ℚ) / 10 }
            match toInt (pySlice msg 22 24 ++ pySlice msg 20 22) with
            | none => (st6, false)
            | some rs => ({ st6 with roll_speed := (rs : ℚ) / 10 }, true)

/-- SIYISDK.parseGimbalInfoMsg: the three sequences are assigned first,
then recording state, motion mode and mounting direction in source order. -/
def parseGimbalInfoMsg (rcd : RecordingMsg) (mnt : MountDirMsg) (mot : MotionModeMsg)
    (msg : List Nat) (sq : Int) : (RecordingMsg × MountDirMsg × MotionModeMsg) × Bool :=
  let rcd1 := { rcd with seq := sq }
  let mnt1 := { mnt with seq := sq }
  let mot1 := { mot with seq := sq }
  match hexNatOpt (pySlice msg 6 8) with
  | none => ((rcd1, mnt1, mot1), false)
  | some s =>
    let rcd2 := { rcd1 with state := s }
    match hexNatOpt (pySlice msg 8 10) with
    | none => ((rcd2, mnt1, mot1), false)
    | some m =>
      let mot2 := { mot1 with mode := m }
      match hexNatOpt (pySlice msg 10 12) with
      | none => ((rcd2, mnt1, mot2), false)
      | some d => ((rcd2, { mnt1 with dir := d }, mot2), true)

/-- SIYISDK.parseRequestAbsoluteZoomMsg. -/
def parseRequestAbsoluteZoomMsg (st : RequestAbsoluteZoomMsg) (msg : List Nat) (sq : Int) :
    RequestAbsoluteZoomMsg × Bool :=
  let st1 := { st with seq := sq }
  match hexNatOpt msg with
  | none => (st1, false)
  | some v => ({ st1 with success := v != 0 }, true)

/-- SIYISDK.parseAutoFocusMsg. -/
def parseAutoFocusMsg (st : AutoFocusMsg) (msg : List Nat) (sq : Int) : AutoFocusMsg × Bool :=
  let st1 := { st with seq := sq }
  match hexNatOpt msg with
  | none => (st1, false)
  | some v => ({ st1 with success := v != 0 }, true)

/-- SIYISDK.parseZoomMsg: byte-swapped level scaled by one tenth. -/
def parseZoomMsg (st : ManualZoomMsg) (msg : List Nat) (sq : Int) : ManualZoomMsg × Bool :=
  let st1 := { st with seq := sq }
  match hexNatOpt (pySlice msg 2 4 ++ pySlice msg 0 2) with
  | none => (st1, false)
  | some v => ({ st1 with level := (v : ℚ) / 10 }, true)

/-- SIYISDK.parseManualFocusMsg. -/
def parseManualFocusMsg (st : ManualFocusMsg) (msg : List Nat) (sq : Int) : ManualFocusMsg × Bool :=
  let st1 := { st with seq := sq }
  match hexNatOpt msg with
  | none => (st1, false)
  | some v => ({ st1 with success := v != 0 }, true)

/-- SIYISDK.parseGimbalSpeedMsg. -/
def parseGimbalSpeedMsg (st : GimbalSpeedMsg) (msg : List Nat) (sq : Int) : GimbalSpeedMsg × Bool :=
  let st1 := { st with seq := sq }
  match hexNatOpt msg with
  | none => (st1, false)
  | some v => ({ st1 with success := v != 0 }, true)

/-- SIYISDK.parseGimbalCenterMsg. -/
def parseGimbalCenterMsg (st : CenterMsg) (msg : List Nat) (sq : Int) : CenterMsg × Bool :=
  let st1 := { st with seq := sq }
  match hexNatOpt msg with
  | none => (st1, false)
  | some v => ({ st1 with success := v != 0 }, true)

/-- SIYISDK.parseFunctionFeedbackMsg. -/
def parseFunctionFeedbackMsg (st : FuncFeedbackInfoMsg) (msg : List Nat) (sq : Int) :
    FuncFeedbackInfoMsg × Bool :=
  let st1 := { st with seq := sq }
  match hexNatOpt msg with
  | none => (st1, false)
  | some v => ({ st1 with info_type := v }, true)

/-- SIYISDK.parseSetGimbalAnglesMsg: only the sequence is stored. -/
def parseSetGimbalAnglesMsg (st : SetGimbalAnglesMsg) (msg : List Nat) (sq : Int) :
    SetGimbalAnglesMsg × Bool :=
  let _ := msg
  ({ st with seq := sq }, true)

/-- SIYISDK.parseRequestStreamMsg as defined, with its two required
parameters; the dispatch chain never manages to call it (see
dispatchFrame). -/
def parseRequestStreamMsg (st : RequestDataStreamMsg) (msg : List Nat) (sq : Int) :
    RequestDataStreamMsg × Bool :=
  let st1 := { st with seq := sq }
  match hexNatOpt msg with
  | none => (st1, false)
  | some v => ({ st1 with data_type := v }, true)

/-- SIYISDK.parseCurrentZoomLevelMsg: integer part plus fractional part
over ten. -/
def parseCurrentZoomLevelMsg (st : CurrentZoomValueMsg) (msg : List Nat) (sq : Int) :
    CurrentZoomValueMsg × Bool :=
  let st1 := { st with seq := sq }
  match hexNatOpt (pySlice msg 0 2) with
  | none => (st1, false)
  | some ip =>
    match hexNatOpt (pySlice msg 2 4) with
    | none => (st1, false)
    | some fp => ({ st1 with level := (ip : ℚ) + (fp : ℚ) / 10 }, true)

/-- SIYISDK.parseTemperatureAtPointMsg: temperature scaled by one
hundredth, then the queried point coordinates, all byte-swapped. -/
def parseTemperatureAtPointMsg (st : TemperatureAtPointMsg) (msg : List Nat) (sq : Int) :
    TemperatureAtPointMsg × Bool :=
  let st1 := { st with seq := sq }
  match hexNatOpt (pySlice msg 2 4 ++ pySlice msg 0 2) with
  | none => (st1, false)
  | some t =>
    let st2 := { st1 with temp := (t : ℚ) / 100 }
    match hexNatOpt (pySlice msg 6 8 ++ pySlice msg 4 6) with
    | none => (st2, false)
    | some xv =>
      let st3 := { st2 with x := xv }
      match hexNatOpt (pySlice msg 10 12 ++ pySlice msg 8 10) with
      | none => (st3, false)
      | some yv => ({ st3 with y := yv }, true)

/-- SIYISDK.parseGimbalCameraSoftRestartMsg. -/
def parseGimbalCameraSoftRestartMsg (st : GimbalCameraSoftRestartMsg) (msg : List Nat) (sq : Int) :
    GimbalCameraSoftRestartMsg × Bool :=
  let st1 := { st with seq := sq }
  match hexNatOpt (pySlice msg 0 2) with
  | none => (st1, false)
  | some c =>
    let st2 := { st1 with camera_reboot_status := c }
    match hexNatOpt (pySlice msg 2 4) with
    | none => (st2, false)
    | some g => ({ st2 with gimbal_reboot_status := g }, true)

/-- SIYISDK.parseRequestGimbalCameraCodecSpecsMsg: a little-endian
struct unpack of exactly nine payload bytes happens before any
assignment; on failure only the sta field is overwritten with zero. -/
def parseRequestGimbalCameraCodecSpecsMsg (st : RequestGimbalCameraCodecSpecsMsg)
    (msg : List Nat) (sq : Int) : RequestGimbalCameraCodecSpecsMsg × Bool :=
  match nibblesToBytes msg with
  | none => ({ st with sta := 0 }, false)
  | some bs =>
    match bs with
    | [b0, b1, b2, b3, b4, b5, b6, b7, b8] =>
      ({ st with
          seq := sq, stream_type := b0, video_enc_type := b1,
          resolution_l := b2 + 256 * b3, resolution_h := b4 + 256 * b5,
          video_bitrate := b6 + 256 * b7, video_framerate := b8 }, true)
    | _ => ({ st with sta := 0 }, false)

/-- SIYISDK.parseSendGimbalCameraCodecSpecsMsg: on failure only sta is
overwritten with zero, keeping the assignments made before the failure. -/
def parseSendGimbalCameraCodecSpecsMsg (st : SendGimbalCameraCodecSpecsMsg)
    (msg : List Nat) (sq : Int) : SendGimbalCameraCodecSpecsMsg × Bool :=
  let st1 := { st with seq := sq }
  match hexNatOpt (pySlice msg 0 2) with
  | none => ({ st1 with sta := 0 }, false)
  | some v =>
    let st2 := { st1 with stream_type := v }
    match hexNatOpt (pySlice msg 2 4) with
    | none => ({ st2 with sta := 0 }, false)
    | some w => ({ st2 with sta := if w != 0 then 1 else 0 }, true)

/-- The image-mode description table of parseRequestGimbalCameraImageModeMsg. -/
def imageModeMap (v : Nat) : String :=
  if v = 0 then "Split Screen (Main: Zoom & Thermal. Sub: Wide Angle)"
  else if v = 1 then "Split Screen (Main: Wide Angle & Thermal. Sub: Zoom)"
  else if v = 2 then "Split Screen (Main: Zoom & Wide Angle. Sub: Thermal)"
  else if v = 3 then "Single Images (Main: Zoom. Sub: Thermal)"
  else if v = 4 then "Single Images (Main: Zoom. Sub: Wide Angle)"
  else if v = 5 then "Single Images (Main: Wide Angle. Sub: Thermal)"
  else if v = 6 then "Single Images (Main: Wide Angle. Sub: Zoom)"
  else if v = 7 then "Single Images (Main: Thermal. Sub: Zoom)"
  else if v = 8 then "Single Images (Main: Thermal. Sub: Wide Angle)"
  else "Unknown mode"

/-- SIYISDK.parseRequestGimbalCameraImageModeMsg: everything is inside its
try block, so a failing hex read leaves the record untouched. -/
def parseRequestGimbalCameraImageModeMsg (st : RequestGimbalCameraImageModeMsg)
    (msg : List Nat) (sq : Int) : RequestGimbalCameraImageModeMsg × Bool :=
  match hexNatOpt msg with
  | none => (st, false)
  | some v => ({ st with seq := sq, vdisp_mode := v, description := imageModeMap v }, true)

/-- SIYISDK.parseSendGimbalCameraImageModeMsg: the source computes the hex
value of the payload before its try block, so an empty payload raises an
uncaught ValueError; on a nonempty payload the try block assigns to an
attribute that resetVars never creates, the resulting AttributeError is
swallowed by the except clause, and no state changes. -/
def parseSendGimbalCameraImageModeMsg (msg : List Nat) : Except PyError Unit :=
  match hexNatOpt msg with
  | none => .error .valueError
  | some _ => .ok ()

/-- Modelled from the spec: the command-id enumeration of siyi_message
(one byte selecting the request/response schema; the concrete byte values
are immaterial to the dispatch logic, which only compares them for
equality). The catch-all constructor stands for any byte that matches no
known command, which bufferCallback only logs. -/
inductive COMMAND where
  | ACQUIRE_FW_VER
  | ACQUIRE_HW_ID
  | AUTO_FOCUS
  | MANUAL_ZOOM
  | MANUAL_FOCUS
  | GIMBAL_SPEED
  | CENTER
  | ACQUIRE_GIMBAL_INFO
  | FUNC_FEEDBACK_INFO
  | ACQUIRE_GIMBAL_ATT
  | SET_GIMBAL_ATTITUDE
  | SET_DATA_STREAM
  | CURRENT_ZOOM_VALUE
  | REQUEST_TEMPERATURE_AT_POINT
  | GIMBAL_CAMERA_SOFT_RESTART
  | REQUEST_GIMBAL_CAMERA_CODEC_SPECS
  | SEND_CODEC_SPECS_TO_GIMBAL_CAMERA
  | REQUEST_GIMBAL_CAMERA_IMAGE_MODE
  | ABSOLUTE_ZOOM
  | UNRECOGNIZED
deriving DecidableEq, Repr

/-- The shared state store: the most recent record for every supported
message type, as held by the SIYISDK instance attributes that resetVars
creates. -/
structure StateStore where
  fw : FirmwareMsg := {}
  hw : HardwareIDMsg := {}
  autoFocus : AutoFocusMsg := {}
  manualZoom : ManualZoomMsg := {}
  manualFocus : ManualFocusMsg := {}
  gimbalSpeed : GimbalSpeedMsg := {}
  center : CenterMsg := {}
  record : RecordingMsg := {}
  mountDir : MountDirMsg := {}
  motionMode : MotionModeMsg := {}
  funcFeedback : FuncFeedbackInfoMsg := {}
  att : AttitdueMsg := {}
  setGimbalAngles : SetGimbalAnglesMsg := {}
  requestDataStream : RequestDataStreamMsg := {}
  requestAbsoluteZoom : RequestAbsoluteZoomMsg := {}
  currentZoomLevel : CurrentZoomValueMsg := {}
  temperatureAtPoint : TemperatureAtPointMsg := {}
  gimbalCameraSoftRestart : GimbalCameraSoftRestartMsg := {}
  requestGimbalCameraCodecSpecs : RequestGimbalCameraCodecSpecsMsg := {}
  sendGimbalCameraCodecSpecs : SendGimbalCameraCodecSpecsMsg := {}
  requestGimbalCameraImageMode : RequestGimbalCameraImageModeMsg := {}
deriving DecidableEq, Repr

/-- The state store as resetVars initializes it. -/
def initStore : StateStore := {}

/-- The command dispatch chain of bufferCallback. Each recognized command
runs its parsing function on the state store and the dispatch continues
regardless of the boolean the parser returns. Two branches reproduce
uncaught exceptions of the source exactly as written there: the
SET_DATA_STREAM branch invokes parseRequestStreamMsg with no arguments
although the method requires a payload and a sequence number, so Python
raises TypeError at the call site, outside every exception handler of
bufferCallback and recvLoop; and the REQUEST_GIMBAL_CAMERA_IMAGE_MODE
branch additionally calls parseSendGimbalCameraImageModeMsg, which raises
before its try block on an empty payload. -/
def dispatchFrame (camDict : List Nat → Option String) (cmd : COMMAND)
    (data : List Nat) (sq : Int) (st : StateStore) : Except PyError StateStore :=
  match cmd with
  | .ACQUIRE_FW_VER => .ok { st with fw := (parseFirmwareMsg st.fw data sq).1 }
  | .ACQUIRE_HW_ID => .ok { st with hw := (parseHardwareIDMsg camDict st.hw data sq).1 }
  | .ACQUIRE_GIMBAL_INFO =>
    let r := (parseGimbalInfoMsg st.record st.mountDir st.motionMode data sq).1
    .ok { st with record := r.1, mountDir := r.2.1, motionMode := r.2.2 }
  | .ACQUIRE_GIMBAL_ATT => .ok { st with att := (parseAttitudeMsg st.att data sq).1 }
  | .FUNC_FEEDBACK_INFO =>
    .ok { st with funcFeedback := (parseFunctionFeedbackMsg st.funcFeedback data sq).1 }
  | .GIMBAL_SPEED => .ok { st with gimbalSpeed := (parseGimbalSpeedMsg st.gimbalSpeed data sq).1 }
  | .AUTO_FOCUS => .ok { st with autoFocus := (parseAutoFocusMsg st.autoFocus data sq).1 }
  | .MANUAL_FOCUS => .ok { st with manualFocus := (parseManualFocusMsg st.manualFocus data sq).1 }
  | .MANUAL_ZOOM => .ok { st with manualZoom := (parseZoomMsg st.manualZoom data sq).1 }
  | .CENTER => .ok { st with center := (parseGimbalCenterMsg st.center data sq).1 }
  | .SET_GIMBAL_ATTITUDE =>
    .ok { st with setGimbalAngles := (parseSetGimbalAnglesMsg st.setGimbalAngles data sq).1 }
  | .SET_DATA_STREAM => .error .typeError
  | .CURRENT_ZOOM_VALUE =>
    .ok { st with currentZoomLevel := (parseCurrentZoomLevelMsg st.currentZoomLevel data sq).1 }
  | .REQUEST_TEMPERATURE_AT_POINT =>
    .ok { st with temperatureAtPoint := (parseTemperatureAtPointMsg st.temperatureAtPoint data sq).1 }
  | .GIMBAL_CAMERA_SOFT_RESTART =>
    .ok { st with
        gimbalCameraSoftRestart := (parseGimbalCameraSoftRestartMsg st.gimbalCameraSoftRestart data sq).1 }
  | .REQUEST_GIMBAL_CAMERA_CODEC_SPECS =>
    .ok { st with
        requestGimbalCameraCodecSpecs :=
          (parseRequestGimbalCameraCodecSpecsMsg st.requestGimbalCameraCodecSpecs data sq).1 }
  | .SEND_CODEC_SPECS_TO_GIMBAL_CAMERA =>
    .ok { st with
        sendGimbalCameraCodecSpecs :=
          (parseSendGimbalCameraCodecSpecsMsg st.sendGimbalCameraCodecSpecs data sq).1 }
  | .REQUEST_GIMBAL_CAMERA_IMAGE_MODE =>
    let st1 := { st with
      requestGimbalCameraImageMode :=
        (parseRequestGimbalCameraImageModeMsg st.requestGimbalCameraImageMode data sq).1 }
    (parseSendGimbalCameraImageModeMsg data).map (fun _ => st1)
  | .ABSOLUTE_ZOOM =>
    .ok { st with requestAbsoluteZoom := (parseRequestAbsoluteZoomMsg st.requestAbsoluteZoom data sq).1 }
  | .UNRECOGNIZED => .ok st

/-- C3 (amended). A malformed payload does not leave the record entirely
unchanged: the sequence numbers are assigned before any payload field is
read, so a payload whose first field read fails still overwrites the
sequence number of the attitude record (and of all three gimbal-info
records) while leaving the data fields unchanged; in general every
assignment made before the failing field read is kept. Only a fully
successful decode updates the whole record. -/
theorem c3_seq_overwritten_on_failure (st : AttitdueMsg) (rcd : RecordingMsg)
    (mnt : MountDirMsg) (mot : MotionModeMsg) (msg : List Nat) (sq : Int)
    (hfail : toInt (pySlice msg 2 4 ++ pySlice msg 0 2) = none)
    (hfail2 : hexNatOpt (pySlice msg 6 8) = none) :
    parseAttitudeMsg st msg sq = ({ st with seq := sq }, false) ∧
    parseGimbalInfoMsg rcd mnt mot msg sq =
      (({ rcd with seq := sq }, { mnt with seq := sq }, { mot with seq := sq }), false) := by
  constructor
  · simp [parseAttitudeMsg, hfail]
  · simp [parseGimbalInfoMsg, hfail2]

/-- C3 counterexample: dispatching an empty (malformed) attitude payload
with a fresh sequence number changes the stored attitude record, where the
claim demands the record stay entirely unchanged including its sequence. -/
theorem c3_counterexample :
    (parseAttitudeMsg {} [] 7).1 ≠ ({} : AttitdueMsg) := by decide

theorem c3_witness :
    (toInt (pySlice [] 2 4 ++ pySlice [] 0 2) = none ∧
        hexNatOpt (pySlice [] 6 8) = none) ∧
      parseAttitudeMsg {} [] 7 = ({ ({} : AttitdueMsg) with seq := 7 }, false) ∧
      parseGimbalInfoMsg {} {} {} [] 7 =
        (({ ({} : RecordingMsg) with seq := 7 }, { ({} : MountDirMsg) with seq := 7 },
          { ({} : MotionModeMsg) with seq := 7 }), false) :=
  ⟨⟨by decide, by decide⟩,
    c3_seq_overwritten_on_failure {} {} {} {} [] 7 (by decide) (by decide)⟩

/-- C4. The claim that bufferCallback returns normally on every datagram is
broken by the data-stream acknowledgment: the SET_DATA_STREAM branch of
the dispatch raises an uncaught TypeError for every payload, sequence and
state, because the source invokes parseRequestStreamMsg with no arguments
while the method requires a payload and a sequence number; nothing in
bufferCallback or recvLoop catches it, so the receive thread dies. -/
theorem c4_set_data_stream_uncaught (camDict : List Nat → Option String)
    (data : List Nat) (sq : Int) (st : StateStore) :
    dispatchFrame camDict COMMAND.SET_DATA_STREAM data sq st =
      Except.error PyError.typeError := rfl

/-- A twelve-byte attitude payload whose yaw bytes are 0x9b 0x00 (low byte
first) and whose remaining fields are zero. -/
def attPayloadYaw155 : List Nat := bytesToNibbles [155, 0, 0, 0, 0, 0, 0, 0, 0, 0, 0, 0]

/-- C9. Dispatching an attitude frame whose yaw payload bytes are 0x9b 0x00
(low byte first: the signed fixed-point value 155, scaled by one tenth)
with sequence 5 stores an attitude record whose yaw is exactly 15.5 and
whose sequence is the frame sequence. -/
theorem c9_yaw_fixed_point :
    (dispatchFrame (fun _ => none) COMMAND.ACQUIRE_GIMBAL_ATT attPayloadYaw155 5
          initStore).toOption.map (fun st => (st.att.yaw, st.att.seq)) =
      some (15.5, 5) := by
  have h1 : toInt (pySlice attPayloadYaw155 2 4 ++ pySlice attPayloadYaw155 0 2) =
      some 155 := by decide
  have h2 : toInt (pySlice attPayloadYaw155 6 8 ++ pySlice attPayloadYaw155 4 6) =
      some 0 := by decide
  have h3 : toInt (pySlice attPayloadYaw155 10 12 ++ pySlice attPayloadYaw155 8 10) =
      some 0 := by decide
  have h4 : toInt (pySlice attPayloadYaw155 14 16 ++ pySlice attPayloadYaw155 12 14) =
      some 0 := by decide
  have h5 : toInt (pySlice attPayloadYaw155 18 20 ++ pySlice attPayloadYaw155 16 18) =
      some 0 := by decide
  have h6 : toInt (pySlice attPayloadYaw155 22 24 ++ pySlice attPayloadYaw155 20 22) =
      some 0 := by decide
  simp [dispatchFrame, parseAttitudeMsg, h1, h2, h3, h4, h5, h6, Except.toOption]
  norm_num

/-- The state checkConnection reads and writes: the firmware record of the
state store, the last-observed firmware sequence, and the connected flag. -/
structure ConnSupState where
  fw : FirmwareMsg
  lastFwSeq : Int
  connected : Bool
deriving DecidableEq, Repr

/-- SIYISDK.checkConnection: a firmware-version request is sent and the
short wait lets the receive pipeline process at most one firmware response
(given here as the optional payload and sequence of that response, applied
through parseFirmwareMsg exactly as the dispatch would); then the liveness
judgment runs: connected becomes true exactly when the firmware record
sequence differs from the last-observed one and the version string is
nonempty, and only in that case is the last-observed sequence updated. -/
def checkConnection (resp : Option (List Nat × Int)) (st : ConnSupState) : ConnSupState :=
  let fw1 :=
    match resp with
    | none => st.fw
    | some (msg, s) => (parseFirmwareMsg st.fw msg s).1
  if fw1.seq ≠ st.lastFwSeq ∧ 0 < fw1.gimbal_firmware_ver.length then
    { fw := fw1, lastFwSeq := fw1.seq, connected := true }
  else
    { fw := fw1, lastFwSeq := st.lastFwSeq, connected := false }

/-- C5. After each run of the liveness probe, the connected flag is true
exactly when the firmware record sequence differs from the previously
observed one and the firmware version string is nonempty; and the
last-observed sequence is updated to the record sequence exactly when the
probe judges the session connected, otherwise it is left unchanged. -/
theorem c5_liveness (resp : Option (List Nat × Int)) (st : ConnSupState) :
    ((checkConnection resp st).connected = true ↔
      ((checkConnection resp st).fw.seq ≠ st.lastFwSeq ∧
        0 < (checkConnection resp st).fw.gimbal_firmware_ver.length)) ∧
    (checkConnection resp st).lastFwSeq =
      (if (checkConnection resp st).connected then (checkConnection resp st).fw.seq
        else st.lastFwSeq) := by
  cases resp with
  | none =>
    by_cases h : st.fw.seq ≠ st.lastFwSeq ∧ 0 < st.fw.gimbal_firmware_ver.length
    · simp [checkConnection, h]
    · simp only [checkConnection, if_neg h]
      simpa using h
  | some p =>
    obtain ⟨msg, s⟩ := p
    by_cases h : (parseFirmwareMsg st.fw msg s).1.seq ≠ st.lastFwSeq ∧
        0 < (parseFirmwareMsg st.fw msg s).1.gimbal_firmware_ver.length
    · simp [checkConnection, h]
    · simp only [checkConnection, if_neg h]
      simpa using h

/-- Outcome summary of one connect call: the returned boolean, the number
of attempts entered, and the number of disconnect teardowns performed. -/
structure ConnectOutcome where
  success : Bool
  attempts : Nat
  disconnects : Nat
deriving DecidableEq, Repr

/-- The inner wait loop of SIYISDK.connect: it polls the connected flag and
returns success as soon as the flag is observed true; flag i is the value
observed at the i-th poll, and remaining counts the polls left before the
wall-clock budget maxWaitTime is exceeded (time strictly increases, so the
budget admits only finitely many polls before the timeout branch tears
down and breaks). -/
def waitLoop (flag : Nat → Bool) : Nat → Nat → Bool
  | i, remaining =>
    if flag i then true
    else
      match remaining with
      | 0 => false
      | r + 1 => waitLoop flag (i + 1) r

/-- The retry loop of SIYISDK.connect: at most maxRetries attempts; each
attempt starts fresh threads and waits on the connected flag, and on
timeout calls disconnect, counts one retry and starts over. flag a i is
the connected value the a-th attempt observes at its i-th poll; polls is
the number of polls the per-attempt wait budget allows. After the retry
budget is exhausted, failure is returned to the caller. -/
def connectLoop (flag : Nat → Nat → Bool) (polls : Nat) :
    Nat → Nat → Nat → Nat → ConnectOutcome
  | 0, _, att, dis => ⟨false, att, dis⟩
  | k + 1, attempt, att, dis =>
    if waitLoop (flag attempt) 0 polls then ⟨true, att + 1, dis⟩
    else connectLoop flag polls k (attempt + 1) (att + 1) (dis + 1)

/-- SIYISDK.connect with retry budget maxRetries. -/
def connect (flag : Nat → Nat → Bool) (polls maxRetries : Nat) : ConnectOutcome :=
  connectLoop flag polls maxRetries 0 0 0

theorem waitLoop_false (flag : Nat → Bool) (h : ∀ i, flag i = false) :
    ∀ r i, waitLoop flag i r = false := by
  intro r
  induction r with
  | zero => intro i; simp [waitLoop, h]
  | succ r ih => intro i; simp [waitLoop, h, ih]

theorem connectLoop_false (flag : Nat → Nat → Bool) (polls : Nat)
    (h : ∀ a i, flag a i = false) :
    ∀ k attempt att dis,
      connectLoop flag polls k attempt att dis = ⟨false, att + k, dis + k⟩ := by
  intro k
  induction k with
  | zero => intro attempt att dis; simp [connectLoop]
  | succ k ih =>
    intro attempt att dis
    simp only [connectLoop, waitLoop_false (flag attempt) (h attempt), if_false, ih,
      Bool.false_eq_true]
    have h1 : att + 1 + k = att + (k + 1) := by omega
    have h2 : dis + 1 + k = dis + (k + 1) := by omega
    rw [h1, h2]

/-- C6. Against a peer that never flips the connected flag, a connect call
with retry budget maxRetries performs exactly maxRetries attempts (in
particular at most that many), tears down with disconnect after every
timed-out attempt, and returns failure to the caller: the loop terminates
for every budget. -/
theorem c6_retry_bound (flag : Nat → Nat → Bool) (polls maxRetries : Nat)
    (h : ∀ a i, flag a i = false) :
    connect flag polls maxRetries = ⟨false, maxRetries, maxRetries⟩ := by
  have h1 := connectLoop_false flag polls h maxRetries 0 0 0
  simpa [connect] using h1

theorem c6_witness :
    (∀ a i : Nat, (fun _ _ => false : Nat → Nat → Bool) a i = false) ∧
      connect (fun _ _ => false) 2 3 = ⟨false, 3, 3⟩ :=
  ⟨fun _ _ => rfl, c6_retry_bound (fun _ _ => false) 2 3 (fun _ _ => rfl)⟩

/-- The observable outcome of one iteration of the setGimbalRotation
control loop: the velocity command this iteration passes to
requestGimbalSpeed, the last-attitude-sequence value after the iteration,
and whether the loop exits (goal reached). -/
structure RotIterOutcome where
  speedCmd : Int × Int
  lastAttSeqAfter : Int
  done : Bool
deriving DecidableEq, Repr

/-- One iteration of the while loop of SIYISDK.setGimbalRotation, after
its fresh attitude request: with an unchanged attitude sequence the
controller commands zero velocity and continues to re-poll; otherwise it
records the new sequence, computes the errors (yaw with the reversed sign
convention of the source), exits with a final zero command when both
errors are within the threshold, and otherwise sends the proportional
command with Python int truncation, clamped to the range -100..100. -/
def setGimbalRotationIteration (att : AttitdueMsg) (lastAttSeq : Int)
    (yaw pitch th gain : ℚ) : RotIterOutcome :=
  if att.seq = lastAttSeq then ⟨(0, 0), lastAttSeq, false⟩
  else
    let yaw_err := -yaw + att.yaw
    let pitch_err := pitch - att.pitch
    if |yaw_err| ≤ th ∧ |pitch_err| ≤ th then ⟨(0, 0), att.seq, true⟩
    else
      ⟨(max (min 100 (truncQ (gain * yaw_err))) (-100),
        max (min 100 (truncQ (gain * pitch_err))) (-100)), att.seq, false⟩

/-- C7. In every iteration of the rotation-controller loop in which the
attitude record sequence equals the sequence seen in the previous
iteration, the controller commands zero velocity, leaves its last-seen
sequence unchanged and re-polls (the loop neither exits nor acts): no
nonzero velocity command is ever computed from the stale reading. -/
theorem c7_stale_zero_velocity (att : AttitdueMsg) (lastAttSeq : Int)
    (yaw pitch th gain : ℚ) (h : att.seq = lastAttSeq) :
    setGimbalRotationIteration att lastAttSeq yaw pitch th gain =
      ⟨(0, 0), lastAttSeq, false⟩ := by
  simp [setGimbalRotationIteration, h]

theorem c7_witness :
    (({ seq := 5 } : AttitdueMsg).seq = 5) ∧
      setGimbalRotationIteration { seq := 5 } 5 30 10 1 4 = ⟨(0, 0), 5, false⟩ :=
  ⟨rfl, c7_stale_zero_velocity { seq := 5 } 5 30 10 1 4 rfl⟩

/-- Yaw and pitch limits of one camera model. -/
structure CameraLimits where
  maxYaw : ℚ
  minYaw : ℚ
  maxPitch : ℚ
  minPitch : ℚ
deriving DecidableEq, Repr

/-- Modelled from the spec: the per-model capability tables of the cameras
module (static lookup data external to the given sources); the numeric
limit values are left abstract and passed in. -/
structure CamerasTable where
  a8mini : CameraLimits
  zr10 : CameraLimits
  zt6 : CameraLimits
deriving DecidableEq, Repr

/-- SIYISDK.requestSetAngles: refuses when the camera type string is empty
(no identity established) or unsupported, returning failure without
sending; otherwise clamps the requested angles against the active model
limits with four successive comparisons and sends the angles scaled by ten
and truncated (the returned pair is the argument pair passed to
setGimbalAttitude). The ZT6 low-pitch branch reproduces the source as
written: it compares against the ZT6 minimum but assigns the A8 mini
minimum (while logging the ZR10 one). -/
def requestSetAngles (cams : CamerasTable) (cam_type_str : String)
    (yaw_deg pitch_deg : ℚ) : Option (Int × Int) :=
  if cam_type_str = "" then none
  else if cam_type_str = "A8 mini" then
    let y1 := if yaw_deg > cams.a8mini.maxYaw then cams.a8mini.maxYaw else yaw_deg
    let y2 := if y1 < cams.a8mini.minYaw then cams.a8mini.minYaw else y1
    let p1 := if pitch_deg > cams.a8mini.maxPitch then cams.a8mini.maxPitch else pitch_deg
    let p2 := if p1 < cams.a8mini.minPitch then cams.a8mini.minPitch else p1
    some (truncQ (y2 * 10), truncQ (p2 * 10))
  else if cam_type_str = "ZR10" then
    let y1 := if yaw_deg > cams.zr10.maxYaw then cams.zr10.maxYaw else yaw_deg
    let y2 := if y1 < cams.zr10.minYaw then cams.zr10.minYaw else y1
    let p1 := if pitch_deg > cams.zr10.maxPitch then cams.zr10.maxPitch else pitch_deg
    let p2 := if p1 < cams.zr10.minPitch then cams.zr10.minPitch else p1
    some (truncQ (y2 * 10), truncQ (p2 * 10))
  else if cam_type_str = "ZT6" then
    let y1 := if yaw_deg > cams.zt6.maxYaw then cams.zt6.maxYaw else yaw_deg
    let y2 := if y1 < cams.zt6.minYaw then cams.zt6.minYaw else y1
    let p1 := if pitch_deg > cams.zt6.maxPitch then cams.zt6.maxPitch else pitch_deg
    let p2 := if p1 < cams.zt6.minPitch then cams.a8mini.minPitch else p1
    some (truncQ (y2 * 10), truncQ (p2 * 10))
  else none

/-- C8. The within-limits yaw is passed through, but a ZT6 pitch below the
ZT6 minimum is not replaced by the nearest ZT6 limit: the source assigns
the A8 mini minimum pitch, so whenever the two tables differ the value
sent is not a ZT6 limit at all. The refusal half of the claim holds: an
empty or unsupported camera type string sends nothing and fails. -/
theorem c8_zt6_min_pitch_clamp (cams : CamerasTable) (yaw_deg pitch_deg : ℚ)
    (hy1 : yaw_deg ≤ cams.zt6.maxYaw) (hy2 : cams.zt6.minYaw ≤ yaw_deg)
    (hp : pitch_deg < cams.zt6.minPitch)
    (hpm : cams.zt6.minPitch ≤ cams.zt6.maxPitch) :
    requestSetAngles cams "ZT6" yaw_deg pitch_deg =
      some (truncQ (yaw_deg * 10), truncQ (cams.a8mini.minPitch * 10)) ∧
    requestSetAngles cams "" yaw_deg pitch_deg = none ∧
    requestSetAngles cams "ZT30" yaw_deg pitch_deg = none := by
  refine ⟨?_, rfl, rfl⟩
  have h1 : ¬yaw_deg > cams.zt6.maxYaw := not_lt.mpr hy1
  have h2 : ¬yaw_deg < cams.zt6.minYaw := not_lt.mpr hy2
  have h3 : ¬pitch_deg > cams.zt6.maxPitch := not_lt.mpr (le_of_lt (lt_of_lt_of_le hp hpm))
  simp [requestSetAngles, h1, h2, h3, hp]

theorem c8_witness :
    ((0 : ℚ) ≤ 135 ∧ (-135 : ℚ) ≤ 0 ∧ (-100 : ℚ) < -80 ∧ (-80 : ℚ) ≤ 25) ∧
      requestSetAngles ⟨⟨135, -135, 25, -90⟩, ⟨135, -135, 25, -90⟩, ⟨135, -135, 25, -80⟩⟩
          "ZT6" 0 (-100) =
        some (truncQ ((0 : ℚ) * 10), truncQ ((-90 : ℚ) * 10)) :=
  ⟨⟨by norm_num, by norm_num, by norm_num, by norm_num⟩,
    (c8_zt6_min_pitch_clamp ⟨⟨135, -135, 25, -90⟩, ⟨135, -135, 25, -90⟩, ⟨135, -135, 25, -80⟩⟩
      0 (-100) (by norm_num) (by norm_num) (by norm_num) (by norm_num)).1⟩

/-- The SIYISDK session state relevant to the socket lifecycle: the single
UDP socket created in the constructor (the only socket assignment in the
class), the stop flag, the connected flag, the state store and the
bookkeeping resetVars reinitializes. -/
structure Session where
  sockOpen : Bool
  stopFlag : Bool
  connected : Bool
  store : StateStore
  lastFwSeq : Int
  lastAttSeq : Int
deriving DecidableEq, Repr

/-- The session as the constructor builds it: the socket open, the caches
reset, the stop flag clear. -/
def initSession : Session :=
  { sockOpen := true, stopFlag := false, connected := false, store := initStore,
    lastFwSeq := 0, lastAttSeq := -1 }

/-- SIYISDK.resetVars: restores every cached record to its initial value
and clears the connected flag and the attitude bookkeeping; it touches
neither the socket nor the last firmware sequence. -/
def resetVars (s : Session) : Session :=
  { s with connected := false, store := initStore, lastAttSeq := -1 }

/-- SIYISDK.disconnect: sets the stop flag, closes the socket, joins the
threads, runs resetVars, then clears the stop flag again. Nothing in the
class assigns a new socket afterwards: the only socket assignment is in
the constructor. -/
def disconnect (s : Session) : Session :=
  { resetVars s with sockOpen := false, stopFlag := false }

/-- The session operations that touch the socket or the cached state. A
connect attempt only creates fresh thread objects, polls the connected
flag and calls disconnect on timeout, so its effect on the socket is that
of its disconnect calls. -/
inductive SessionOp where
  | sendMsg (m : List Nat)
  | recvAttempt
  | disconnect
  | resetVars
deriving DecidableEq, Repr

/-- Effect of one operation: the new session, the boolean sendMsg returned
when the operation was a send (none otherwise), and whether a receive
obtained data. SIYISDK.sendMsg wraps sendto in try/except and returns
false on failure; a closed socket makes sendto raise, so nothing is
transmitted and false comes back. rcvMsg and bufferCallback likewise
catch the failure of receiving on a closed socket and return without
processing anything. -/
def applySessionOp (s : Session) : SessionOp → Session × Option Bool × Bool
  | .sendMsg _ => (s, some s.sockOpen, false)
  | .recvAttempt => (s, none, s.sockOpen)
  | .disconnect => (disconnect s, none, false)
  | .resetVars => (resetVars s, none, false)

/-- Runs a list of session operations, collecting every sendMsg return
value and every receive success flag in order. -/
def runSessionOps (s : Session) : List SessionOp → Session × List Bool × List Bool
  | [] => (s, [], [])
  | op :: rest =>
    let r1 := applySessionOp s op
    let r2 := runSessionOps r1.1 rest
    (r2.1,
      (match r1.2.1 with
        | some b => [b]
        | none => []) ++ r2.2.1,
      (match op with
        | .recvAttempt => [r1.2.2]
        | _ => []) ++ r2.2.2)

theorem runSessionOps_closed (s : Session) (ops : List SessionOp)
    (h : s.sockOpen = false) :
    (runSessionOps s ops).1.sockOpen = false ∧
    (∀ b ∈ (runSessionOps s ops).2.1, b = false) ∧
    (∀ b ∈ (runSessionOps s ops).2.2, b = false) := by
  induction ops generalizing s with
  | nil => simp [runSessionOps, h]
  | cons op rest ih =>
    cases op with
    | sendMsg m =>
      obtain ⟨h1, h2, h3⟩ := ih s h
      refine ⟨h1, ?_, h3⟩
      intro b hb
      simp only [runSessionOps, applySessionOp, List.mem_append, List.mem_singleton] at hb
      rcases hb with hb | hb
      · rw [hb, h]
      · exact h2 b hb
    | recvAttempt =>
      obtain ⟨h1, h2, h3⟩ := ih s h
      refine ⟨h1, h2, ?_⟩
      intro b hb
      simp only [runSessionOps, applySessionOp, List.mem_append, List.mem_singleton] at hb
      rcases hb with hb | hb
      · rw [hb, h]
      · exact h3 b hb
    | disconnect =>
      obtain ⟨h1, h2, h3⟩ := ih (disconnect s) rfl
      exact ⟨h1, fun b hb => h2 b (by simpa [runSessionOps, applySessionOp] using hb),
        fun b hb => h3 b (by simpa [runSessionOps, applySessionOp] using hb)⟩
    | resetVars =>
      obtain ⟨h1, h2, h3⟩ := ih (resetVars s) (by simp [resetVars, h])
      exact ⟨h1, fun b hb => h2 b (by simpa [runSessionOps, applySessionOp] using hb),
        fun b hb => h3 b (by simpa [runSessionOps, applySessionOp] using hb)⟩

/-- C10. disconnect closes the socket, and no later session operation ever
reopens it (the socket attribute is assigned only in the constructor):
after a disconnect, for every sequence of subsequent operations, the
socket stays closed, every sendMsg call returns false with nothing
transmitted, and every receive attempt obtains nothing, so no request
issued after the disconnect can reach the device. -/
theorem c10_socket_closed_forever (s : Session) (ops : List SessionOp) :
    (disconnect s).sockOpen = false ∧
    (runSessionOps (disconnect s) ops).1.sockOpen = false ∧
    (∀ b ∈ (runSessionOps (disconnect s) ops).2.1, b = false) ∧
    (∀ b ∈ (runSessionOps (disconnect s) ops).2.2, b = false) :=
  ⟨rfl, runSessionOps_closed (disconnect s) ops rfl⟩
